import Mathlib

/-
Verification development for the AI-Monitoring-System repository
(fraud-prediction serving, persistence and drift monitoring).

The definitions below are a shallow embedding of the Python sources:
  src/storage/database.py          (DatabaseManager)
  src/repositories/prediction_repository.py (PredictionRepository)
  src/services/model_service.py    (ModelService)
  src/services/monitoring_service.py (MonitoringService)
  src/api/routes/predict.py        (predict route)
  src/api/routes/health.py         (health_check route)

SQLite TEXT comparison is byte-wise, which on the ISO-8601 timestamp
strings used here coincides with codepoint-lexicographic order; it is
embedded as strLt / strLe below.  JSON serialization of the feature
mapping (json.dumps / json.loads) is embedded at the level of JSON
values (Jval): the features column stores a JSON object of numbers.
Floating point numbers are embedded as rationals.
-/

/-! ### String order (SQLite TEXT comparison / Python str comparison) -/

def charLt (a b : Char) : Bool := decide (a.toNat < b.toNat)

def charListLt : List Char → List Char → Bool
  | [], [] => false
  | [], _ :: _ => true
  | _ :: _, [] => false
  | a :: as, b :: bs => charLt a b || (a == b && charListLt as bs)

/-- Lexicographic strict order on strings (byte order on UTF-8, as SQLite
compares TEXT values). -/
def strLt (a b : String) : Bool := charListLt a.data b.data

/-- Lexicographic non-strict order on strings. -/
def strLe (a b : String) : Bool := a == b || strLt a b

theorem charLt_irrefl (a : Char) : charLt a a = false := by
  simp [charLt]

theorem charLt_asymm {a b : Char} (h : charLt a b = true) : charLt b a = false := by
  simp only [charLt, decide_eq_true_eq, decide_eq_false_iff_not] at *
  omega

theorem charLt_ne {a b : Char} (h : charLt a b = true) : (a == b) = false := by
  simp only [charLt, decide_eq_true_eq] at h
  simp only [beq_eq_false_iff_ne, ne_eq]
  intro he
  subst he
  omega

theorem charListLt_irrefl (l : List Char) : charListLt l l = false := by
  induction l with
  | nil => rfl
  | cons a as ih => simp [charListLt, charLt_irrefl, ih]

theorem charListLt_asymm : ∀ {l m : List Char}, charListLt l m = true → charListLt m l = false
  | [], [], h => by simp [charListLt] at h
  | [], _ :: _, _ => by simp [charListLt]
  | _ :: _, [], h => by simp [charListLt] at h
  | a :: as, b :: bs, h => by
    simp only [charListLt, Bool.or_eq_true, Bool.and_eq_true] at h ⊢
    rcases h with h | ⟨hab, h⟩
    · simp only [Bool.or_eq_false_iff, Bool.and_eq_false_iff]
      refine ⟨charLt_asymm h, Or.inl ?_⟩
      have := charLt_ne h
      simp only [beq_eq_false_iff_ne, ne_eq] at this ⊢
      exact fun he => this he.symm
    · have hab' : a = b := by simpa using hab
      subst hab'
      simp [charLt_irrefl, charListLt_asymm h]

theorem charListLt_total : ∀ (l m : List Char),
    l = m ∨ charListLt l m = true ∨ charListLt m l = true
  | [], [] => Or.inl rfl
  | [], _ :: _ => Or.inr (Or.inl (by simp [charListLt]))
  | _ :: _, [] => Or.inr (Or.inr (by simp [charListLt]))
  | a :: as, b :: bs => by
    rcases Nat.lt_trichotomy a.toNat b.toNat with h | h | h
    · exact Or.inr (Or.inl (by simp [charListLt, charLt, h]))
    · have hab : a = b := Char.ext (UInt32.ext h)
      subst hab
      rcases charListLt_total as bs with h' | h' | h'
      · exact Or.inl (by rw [h'])
      · exact Or.inr (Or.inl (by simp [charListLt, h']))
      · exact Or.inr (Or.inr (by simp [charListLt, h']))
    · exact Or.inr (Or.inr (by simp [charListLt, charLt, h]))

theorem strLt_irrefl (a : String) : strLt a a = false := by
  simp [strLt, charListLt_irrefl]

theorem strLe_total (a b : String) : strLe a b = true ∨ strLe b a = true := by
  cases a with
  | mk la =>
    cases b with
    | mk lb =>
      rcases charListLt_total la lb with h | h | h
      · subst h
        exact Or.inl (by simp [strLe])
      · exact Or.inl (by simp [strLe, strLt, h])
      · exact Or.inr (by simp [strLe, strLt, h])

theorem strLe_of_strLt {a b : String} (h : strLt a b = true) : strLe a b = true := by
  simp [strLe, h]

theorem strLe_false_of_strLt {a b : String} (h : strLt a b = true) : strLe b a = false := by
  cases a with
  | mk la =>
    cases b with
    | mk lb =>
      simp only [strLt] at h
      simp only [strLe, strLt, Bool.or_eq_false_iff]
      constructor
      · simp only [beq_eq_false_iff_ne, ne_eq]
        intro he
        have hd : lb = la := congrArg String.data he
        subst hd
        simp [charListLt_irrefl] at h
      · exact charListLt_asymm h

/-! ### Generic insertion sort (model of the SQL ORDER BY and Python sorted) -/

/-- Insert x into l, placing x in front of the first element y with le y x. -/
def insSorted (le : α → α → Bool) (x : α) : List α → List α
  | [] => [x]
  | y :: ys => if le y x then x :: y :: ys else y :: insSorted le x ys

/-- Sort a list so that the result is ordered with larger elements
(with respect to le) first: the output satisfies
List.Chain' fun a b => le b a. -/
def sortBy (le : α → α → Bool) : List α → List α
  | [] => []
  | x :: xs => insSorted le x (sortBy le xs)

theorem insSorted_perm (le : α → α → Bool) (x : α) :
    ∀ l : List α, List.Perm (insSorted le x l) (x :: l)
  | [] => List.Perm.refl _
  | y :: ys => by
    simp only [insSorted]
    by_cases h : le y x = true
    · simp [h]
    · simp only [h, if_false]
      exact (List.Perm.cons y (insSorted_perm le x ys)).trans (List.Perm.swap x y ys)

theorem sortBy_perm (le : α → α → Bool) :
    ∀ l : List α, List.Perm (sortBy le l) l
  | [] => List.Perm.refl _
  | x :: xs => by
    simp only [sortBy]
    exact (insSorted_perm le x (sortBy le xs)).trans
      (List.Perm.cons x (sortBy_perm le xs))

theorem mem_sortBy (le : α → α → Bool) (l : List α) (a : α) :
    a ∈ sortBy le l ↔ a ∈ l :=
  (sortBy_perm le l).mem_iff

theorem insSorted_chain (le : α → α → Bool)
    (htot : ∀ a b : α, le a b = true ∨ le b a = true) (x : α) :
    ∀ l : List α, List.Chain' (fun a b => le b a = true) l →
      List.Chain' (fun a b => le b a = true) (insSorted le x l)
  | [], _ => List.chain'_singleton x
  | y :: ys, hc => by
    simp only [insSorted]
    by_cases h : le y x = true
    · simp only [h, if_true]
      exact List.Chain'.cons h hc
    · simp only [h, if_false]
      have hxy : le x y = true := (htot x y).resolve_right (by simpa using h)
      have hrest := insSorted_chain le htot x ys (List.Chain'.tail hc)
      cases ys with
      | nil => exact List.chain'_pair.mpr hxy
      | cons z zs =>
        simp only [insSorted] at hrest ⊢
        by_cases hz : le z x = true
        · simp only [hz, if_true] at hrest ⊢
          exact List.Chain'.cons hxy hrest
        · simp only [hz, if_false] at hrest ⊢
          have hyz : le z y = true := (List.chain'_cons.mp hc).1
          exact List.Chain'.cons hyz hrest

theorem sortBy_chain (le : α → α → Bool)
    (htot : ∀ a b : α, le a b = true ∨ le b a = true) :
    ∀ l : List α, List.Chain' (fun a b => le b a = true) (sortBy le l)
  | [] => List.chain'_nil
  | x :: xs => insSorted_chain le htot x (sortBy le xs) (sortBy_chain le htot xs)

/-- Appending a strictly largest element sorts to the front. -/
theorem sortBy_append_largest (le : α → α → Bool) (x : α)
    (l : List α) (h : ∀ y ∈ l, le x y = false ∧ le y x = true) :
    sortBy le (l ++ [x]) = x :: sortBy le l := by
  induction l with
  | nil => rfl
  | cons a as ih =>
    have ha := h a (List.mem_cons_self a as)
    have hih := ih (fun y hy => h y (List.mem_cons_of_mem a hy))
    simp [List.cons_append, sortBy, List.append_eq, hih, insSorted, ha.1]

/-! ### Python truthiness of optional arguments -/

/-- Python  if limit:  on an Optional int argument: truthy iff present and
nonzero. -/
def pyTruthyNat : Option Nat → Bool
  | none => false
  | some n => n != 0

/-- Python  if ts:  on an Optional str argument: truthy iff present and
non-empty. -/
def pyTruthyStr : Option String → Bool
  | none => false
  | some s => s != ""

/-! ### Python sorted / set helpers and list repr -/

/-- Model of Python sorted(...) on strings (ascending lexicographic). -/
def sortStrAsc (l : List String) : List String :=
  sortBy (fun a b => strLe b a) l

/-- First-occurrence deduplication (the effect of building a Python set and
iterating; only the underlying element set matters downstream). -/
def firstDedup (seen : List String) : List String → List String
  | [] => []
  | x :: xs =>
    if seen.contains x then firstDedup seen xs
    else x :: firstDedup (x :: seen) xs

/-- Python repr of a list of strings, as interpolated into error messages:
[\x27a\x27, \x27b\x27]. -/
def pyStrListRepr (xs : List String) : String :=
  "[" ++ String.intercalate ", " (xs.map (fun s => "\x27" ++ s ++ "\x27")) ++ "]"

/-- msg mentions sub when sub occurs verbatim inside msg. -/
def mentions (msg sub : String) : Prop := ∃ pre post, msg = pre ++ sub ++ post

theorem mem_firstDedup (x : String) :
    ∀ (seen l : List String), x ∈ firstDedup seen l ↔ (x ∈ l ∧ x ∉ seen)
  | seen, [] => by simp [firstDedup]
  | seen, y :: ys => by
    simp only [firstDedup]
    by_cases h : seen.contains y
    · rw [if_pos h, mem_firstDedup x seen ys]
      have hy : y ∈ seen := by simpa using h
      simp only [List.mem_cons]
      constructor
      · rintro ⟨hm, hn⟩
        exact ⟨Or.inr hm, hn⟩
      · rintro ⟨hm | hm, hn⟩
        · subst hm
          exact absurd hy hn
        · exact ⟨hm, hn⟩
    · rw [if_neg h]
      have hy : y ∉ seen := by simpa using h
      simp only [List.mem_cons, mem_firstDedup x (y :: seen) ys]
      constructor
      · rintro (hm | ⟨hm, hn⟩)
        · subst hm
          exact ⟨Or.inl rfl, hy⟩
        · exact ⟨Or.inr hm, fun hs => hn (Or.inr hs)⟩
      · rintro ⟨hm | hm, hn⟩
        · exact Or.inl hm
        · by_cases hxy : x = y
          · exact Or.inl hxy
          · exact Or.inr ⟨hm, fun hc => hc.elim hxy hn⟩

/-! ### Domain errors (src/core/exceptions.py)

PredictionError carries a details dict; its only structured payload in the
source is the sorted missing_features list, embedded here directly. -/

inductive AppError where
  | modelLoadError (message : String)
  | predictionError (message : String) (missingFeatures : List String)
  | databaseError (message : String)
  | driftDetectionError (message : String)
  | validationError (message : String)
  | configurationError (message : String)
  deriving DecidableEq, Repr

/-! ### JSON values (the serialized features blob)

json.dumps of the feature dict produces the textual rendering of a JSON
object of numbers; json.loads inverts it.  The blob is embedded at the
level of JSON values, with floats as rationals. -/

inductive Jval where
  | num (q : ℚ)
  | str (s : String)
  | arr (elems : List Jval)
  | obj (fields : List (String × Jval))

/-- A Python feature dict: ordered mapping from feature name to numeric
value. -/
def FeatMap : Type := List (String × ℚ)

instance : DecidableEq FeatMap := by
  unfold FeatMap
  infer_instance

/-- The keys (column names) of a feature dict, in order. -/
def featKeys (f : FeatMap) : List String := f.map Prod.fst

/-- json.dumps on a feature dict (src/repositories/prediction_repository.py
line 63): a JSON object with one numeric field per feature. -/
def json_dumps (f : FeatMap) : Jval :=
  Jval.obj (f.map (fun kv => (kv.1, Jval.num kv.2)))

/-- json.loads on a features blob (src/repositories/prediction_repository.py
line 137): recover the feature dict.  Only object-of-number blobs are ever
stored; other shapes decode to a default value. -/
def json_loads (j : Jval) : FeatMap :=
  match j with
  | Jval.obj fields =>
      fields.map (fun kv => (kv.1, match kv.2 with | Jval.num q => q | _ => 0))
  | _ => []

theorem json_loads_dumps (f : FeatMap) : json_loads (json_dumps f) = f := by
  unfold json_dumps json_loads FeatMap
  induction f with
  | nil => rfl
  | cons kv rest ih => simp_all

/-! ### Storage and PredictionRepository
(src/storage/database.py, src/repositories/prediction_repository.py)

One row of the live_predictions table, schema
(id INTEGER PRIMARY KEY AUTOINCREMENT, timestamp TEXT, features TEXT,
prediction INTEGER, probability REAL, latency_ms REAL). -/

structure StoredRow where
  id : Nat
  timestamp : String
  features : Jval
  prediction : Int
  probability : ℚ
  latency_ms : ℚ

/-- The SQLite store: rows in insertion order, plus the next AUTOINCREMENT
rowid. -/
structure Store where
  rows : List StoredRow
  nextId : Nat

/-- A prediction record as returned by PredictionRepository.get_predictions
(a dict with the features blob deserialized). -/
structure PredictionOut where
  id : Nat
  timestamp : String
  features : FeatMap
  prediction : Int
  probability : ℚ
  latency_ms : ℚ
  deriving DecidableEq

/-- PredictionRepository.save_prediction: timestamp defaults to the current
UTC instant (nowUtc) when omitted; serializes features; inserts one row;
returns the assigned rowid. -/
def save_prediction (s : Store) (features : FeatMap) (prediction : Int)
    (probability : ℚ) (latency_ms : ℚ) (timestamp : Option String)
    (nowUtc : String) : Nat × Store :=
  let ts := timestamp.getD nowUtc
  let row : StoredRow :=
    { id := s.nextId, timestamp := ts, features := json_dumps features,
      prediction := prediction, probability := probability,
      latency_ms := latency_ms }
  (s.nextId, { rows := s.rows ++ [row], nextId := s.nextId + 1 })

/-- Row comparison used by ORDER BY timestamp DESC. -/
def rowLe (a b : StoredRow) : Bool := strLe a.timestamp b.timestamp

/-- The WHERE clause of get_predictions: timestamp >= start (when the start
filter is truthy) and timestamp <= end (when the end filter is truthy). -/
def matchesFilters (startT endT : Option String) (r : StoredRow) : Bool :=
  (if pyTruthyStr startT then strLe (startT.getD "") r.timestamp else true) &&
  (if pyTruthyStr endT then strLe r.timestamp (endT.getD "") else true)

/-- Deserialize one row into the returned record dict. -/
def rowToOut (r : StoredRow) : PredictionOut :=
  { id := r.id, timestamp := r.timestamp, features := json_loads r.features,
    prediction := r.prediction, probability := r.probability,
    latency_ms := r.latency_ms }

/-- The record list PredictionRepository.get_predictions assembles: filter
by the inclusive timestamp bounds, ORDER BY timestamp DESC, and append
LIMIT ? OFFSET ? only when the limit argument is truthy. -/
def getPredictionsList (s : Store) (limit : Option Nat) (offset : Nat)
    (startT endT : Option String) : List PredictionOut :=
  let filtered := s.rows.filter (matchesFilters startT endT)
  let sorted := sortBy rowLe filtered
  let limited :=
    if pyTruthyNat limit then (sorted.drop offset).take (limit.getD 0)
    else sorted
  limited.map rowToOut

/-- PredictionRepository.get_predictions. -/
def get_predictions (s : Store) (limit : Option Nat) (offset : Nat)
    (startT endT : Option String) : Except AppError (List PredictionOut) :=
  Except.ok (getPredictionsList s limit offset startT endT)

/-- The rows selected by get_feature_data:
SELECT features FROM live_predictions ORDER BY timestamp DESC, with LIMIT
appended only when the limit argument is truthy. -/
def selectFeatureRows (s : Store) (limit : Option Nat) : List Jval :=
  let sorted := sortBy rowLe s.rows
  let sel := if pyTruthyNat limit then sorted.take (limit.getD 0) else sorted
  sel.map (fun r => r.features)

/-- A pandas DataFrame, abstracted to what the drift pipeline inspects:
its column list and its row count. -/
structure DataFrame where
  cols : List String
  nrows : Nat
  deriving DecidableEq, Repr

/-- PredictionRepository.get_feature_data: when zero rows match, an
explicitly empty DataFrame is returned (not an error); otherwise each
features blob is deserialized and the rows are assembled into a DataFrame
whose columns are the feature names (pandas: first-appearance order,
deduplicated). -/
def get_feature_data (s : Store) (limit : Option Nat) :
    Except AppError DataFrame :=
  let sel := selectFeatureRows s limit
  if sel.isEmpty then Except.ok { cols := [], nrows := 0 }
  else
    let featMaps := sel.map json_loads
    Except.ok
      { cols := firstDedup [] (featMaps.map featKeys).flatten,
        nrows := featMaps.length }

/-- The number of live records get_feature_data selects. -/
def liveCount (s : Store) (limit : Option Nat) : Nat :=
  (selectFeatureRows s limit).length

/-- The column list get_feature_data assembles (meaningful when at least
one row is selected). -/
def liveCols (s : Store) (limit : Option Nat) : List String :=
  firstDedup [] (((selectFeatureRows s limit).map json_loads).map featKeys).flatten

/-! ### ModelService (src/services/model_service.py)

The joblib model artifact is an external collaborator: a fitted binary
classifier exposing predict and predict_proba on a single-row frame whose
columns are the feature list, in order.  It is embedded as a pair of
functions on the ordered value vector. -/

structure SkModel where
  predictFn : List ℚ → Int
  predictProbaFn : List ℚ → ℚ

/-- In-memory state of ModelService: the loaded model, the loaded feature
list, and the _loaded flag. -/
structure ModelState where
  model : Option SkModel
  feature_list : Option (List String)
  loaded : Bool

/-- The state right after ModelService.__init__ (nothing loaded). -/
def initModelState : ModelState :=
  { model := none, feature_list := none, loaded := false }

/-- ModelService.is_loaded. -/
def is_loaded (st : ModelState) : Bool :=
  st.loaded && st.model.isSome && st.feature_list.isSome

/-- The artifacts load_model reads from disk: the joblib model file and the
JSON feature-list file (none = file missing / unreadable). -/
structure LoadEnv where
  modelArtifact : Option SkModel
  featuresArtifact : Option Jval

/-- Decode the feature-list artifact: it must be a JSON list (of feature
names). -/
def jvalToFeatureList : Jval → Option (List String)
  | Jval.arr elems =>
      elems.mapM (fun j => match j with | Jval.str s => some s | _ => none)
  | _ => none

/-- ModelService.load_model: no-op when already loaded; fails with
ModelLoadError when either artifact is missing, the feature list is not a
list, or it is empty; otherwise stores model and feature list and sets the
loaded flag. -/
def load_model (st : ModelState) (env : LoadEnv) : Except AppError ModelState :=
  if st.loaded then Except.ok st
  else
    match env.modelArtifact, env.featuresArtifact with
    | none, _ => Except.error (AppError.modelLoadError "Model file not found")
    | some _, none => Except.error (AppError.modelLoadError "Model file not found")
    | some m, some j =>
      match jvalToFeatureList j with
      | none =>
          Except.error
            (AppError.modelLoadError "Model loading failed: Feature list must be a list")
      | some fl =>
          if fl.isEmpty then
            Except.error
              (AppError.modelLoadError "Model loading failed: Feature list cannot be empty")
          else
            Except.ok { model := some m, feature_list := some fl, loaded := true }

/-- The sorted set difference set(feature_list) - set(input keys): the
missing required features, sorted ascending as Python sorted does. -/
def missingFeatures (fl : List String) (f : FeatMap) : List String :=
  sortStrAsc (firstDedup [] (fl.filter (fun k => !(featKeys f).contains k)))

/-- Result of one model prediction. -/
structure PredOut where
  prediction : Int
  probability : ℚ
  deriving DecidableEq

/-- ModelService.predict: requires the loaded state, else ModelLoadError;
requires the input key set to cover the feature schema, else
PredictionError naming the sorted missing keys; otherwise reorders the
accepted values into schema order and scores them. -/
def predict (st : ModelState) (features : FeatMap) : Except AppError PredOut :=
  if !(is_loaded st) then
    Except.error (AppError.modelLoadError "Model is not loaded. Call load_model() first.")
  else
    match st.model, st.feature_list with
    | some m, some fl =>
      let missing := missingFeatures fl features
      if !missing.isEmpty then
        Except.error
          (AppError.predictionError ("Missing features: " ++ pyStrListRepr missing) missing)
      else
        let row := fl.map (fun k => ((features.lookup k).getD 0))
        Except.ok { prediction := m.predictFn row, probability := m.predictProbaFn row }
    | _, _ =>
      Except.error (AppError.modelLoadError "Model is not loaded. Call load_model() first.")

/-! ### MonitoringService (src/services/monitoring_service.py) -/

/-- Drop the label column before drift comparison
(monitoring_service.py lines 56-57). -/
def dropClassColumn (df : DataFrame) : DataFrame :=
  if df.cols.contains "Class" then
    { cols := df.cols.erase "Class", nrows := df.nrows }
  else df

/-- MonitoringService.load_reference_data: the raw reference CSV, or none
when the artifact is absent/unreadable; failure is reported as a
DriftDetectionError. -/
def load_reference_data (raw : Option DataFrame) : Except AppError DataFrame :=
  match raw with
  | none =>
      Except.error
        (AppError.driftDetectionError "Reference data not found: reference data file is missing")
  | some df => Except.ok (dropClassColumn df)

def noLiveDataMsg : String :=
  "No live data found in database. Please make some predictions via the API first."

def notEnoughMsg (found minRecords : Nat) : String :=
  "Not enough live data for drift detection. Found " ++ toString found ++
  " records, but need at least " ++ toString minRecords ++
  " records. Please make more predictions via the API."

def featureMismatchMsg (missingInLive extraInLive : List String) : String :=
  "Feature mismatch between reference and live data." ++
  (if missingInLive.isEmpty then ""
   else " Missing in live: " ++ pyStrListRepr missingInLive) ++
  (if extraInLive.isEmpty then ""
   else " Extra in live: " ++ pyStrListRepr extraInLive)

/-- Equality of column lists as sets. -/
def listSetEq (a b : List String) : Bool :=
  a.all b.contains && b.all a.contains

/-- Result dict of a successful detect_drift run. -/
structure DriftResult where
  status : String
  record_count : Nat
  html_path : String
  json_path : String
  deriving DecidableEq, Repr

/-- MonitoringService.detect_drift: load reference (fail fast), fetch the
live feature table, fail on empty live data, fail below the minimum-record
threshold, fail on a column-set mismatch (message listing both sorted
sides), otherwise run the statistical report (delegated to the external
evidently collaborator) and persist the two artifacts at a fixed,
overwritten location.  Any failure that is not already a
DriftDetectionError is wrapped as one. -/
def detect_drift (refRaw : Option DataFrame) (s : Store)
    (min_records : Nat) (limit : Option Nat) (report_dir : String) :
    Except AppError DriftResult :=
  match load_reference_data refRaw with
  | Except.error e => Except.error e
  | Except.ok reference_df =>
    match get_feature_data s limit with
    | Except.error (AppError.driftDetectionError m) =>
        Except.error (AppError.driftDetectionError m)
    | Except.error e =>
        Except.error
          (AppError.driftDetectionError ("Drift detection failed: " ++ errMessage e))
    | Except.ok live_df =>
      if live_df.nrows = 0 then
        Except.error (AppError.driftDetectionError noLiveDataMsg)
      else
        let record_count := live_df.nrows
        if record_count < min_records then
          Except.error
            (AppError.driftDetectionError (notEnoughMsg record_count min_records))
        else
          if !(listSetEq reference_df.cols live_df.cols) then
            let missing_in_live :=
              sortStrAsc (firstDedup []
                (reference_df.cols.filter (fun c => !live_df.cols.contains c)))
            let extra_in_live :=
              sortStrAsc (firstDedup []
                (live_df.cols.filter (fun c => !reference_df.cols.contains c)))
            Except.error
              (AppError.driftDetectionError
                (featureMismatchMsg missing_in_live extra_in_live))
          else
            Except.ok
              { status := "success", record_count := record_count,
                html_path := report_dir ++ "/monitoring_report.html",
                json_path := report_dir ++ "/monitoring_summary.json" }
where
  errMessage : AppError → String
    | AppError.modelLoadError m => m
    | AppError.predictionError m _ => m
    | AppError.databaseError m => m
    | AppError.driftDetectionError m => m
    | AppError.validationError m => m
    | AppError.configurationError m => m

/-! ### API routes (src/api/routes/predict.py, src/api/routes/health.py) -/

/-- The body of a successful scoring response. -/
structure PredictionResponse where
  prediction : Int
  probability : ℚ
  latency_ms : ℚ
  timestamp : String
  deriving DecidableEq

/-- A FastAPI HTTPException raised by a route. -/
structure HttpErr where
  status_code : Nat
  detail : String
  deriving DecidableEq

/-- The predict route handler.  modelResult is the outcome of
model_service.predict on the request features; saveResult is the outcome
of prediction_repository.save_prediction; latency_ms and timestamp are the
values the handler computes between the two calls.  The save call sits in
its own try/except: any failure there is logged and swallowed, and the
response is still returned.  Errors the model call raises map to
status-specific HTTPExceptions. -/
def predictRoute (modelResult : Except AppError PredOut)
    (saveResult : Except AppError Nat) (latency_ms : ℚ) (timestamp : String) :
    Except HttpErr PredictionResponse :=
  match modelResult with
  | Except.ok r =>
    match saveResult with
    | Except.ok _ =>
        Except.ok
          { prediction := r.prediction, probability := r.probability,
            latency_ms := latency_ms, timestamp := timestamp }
    | Except.error _ =>
        -- logged: "Failed to save prediction to database"; not propagated
        Except.ok
          { prediction := r.prediction, probability := r.probability,
            latency_ms := latency_ms, timestamp := timestamp }
  | Except.error (AppError.modelLoadError _) =>
      Except.error { status_code := 503, detail := "Model not loaded. Please check server logs." }
  | Except.error (AppError.validationError m) =>
      Except.error { status_code := 400, detail := m }
  | Except.error (AppError.predictionError m _) =>
      Except.error { status_code := 500, detail := "Prediction failed: " ++ m }
  | Except.error _ =>
      Except.error { status_code := 500, detail := "An unexpected error occurred" }

/-- The health response body. -/
structure HealthResponse where
  status : String
  message : String
  model_loaded : Bool
  database_connected : Bool
  deriving DecidableEq

/-- DatabaseManager.health_check (src/storage/database.py lines 120-133):
attempt a trivial round-trip query; report false on any failure, never
raise. -/
def db_health_check (connAttempt : Except String Unit) : Bool :=
  match connAttempt with
  | Except.ok _ => true
  | Except.error _ => false

/-- The health route handler.  mRes and dRes are the outcomes of
model_service.is_loaded() and db_manager.health_check() as seen by the
surrounding try/except: an exception raised inside the checked block
produces the "error" response instead of propagating. -/
def healthRoute (mRes dRes : Except String Bool) : HealthResponse :=
  match mRes, dRes with
  | Except.ok model_loaded, Except.ok database_connected =>
    if model_loaded && database_connected then
      { status := "healthy", message := "API is operational",
        model_loaded := model_loaded, database_connected := database_connected }
    else
      { status := "degraded",
        message := "API is degraded: " ++ String.intercalate ", "
          ((if !model_loaded then ["model not loaded"] else []) ++
           (if !database_connected then ["database not connected"] else [])),
        model_loaded := model_loaded, database_connected := database_connected }
  | Except.error e, _ =>
      { status := "error", message := "Health check failed: " ++ e,
        model_loaded := false, database_connected := false }
  | Except.ok _, Except.error e =>
      { status := "error", message := "Health check failed: " ++ e,
        model_loaded := false, database_connected := false }

/-! ### Repeated saves (for identifier uniqueness) -/

/-- The arguments of one save_prediction call. -/
structure SaveArgs where
  features : FeatMap
  prediction : Int
  probability : ℚ
  latency_ms : ℚ
  timestamp : Option String
  nowUtc : String

/-- Run a sequence of save_prediction calls, collecting the returned row
identifiers. -/
def saveMany (s : Store) : List SaveArgs → List Nat × Store
  | [] => ([], s)
  | a :: rest =>
    let r := save_prediction s a.features a.prediction a.probability
      a.latency_ms a.timestamp a.nowUtc
    let out := saveMany r.2 rest
    (r.1 :: out.1, out.2)

theorem saveMany_ids (calls : List SaveArgs) :
    ∀ s : Store, (saveMany s calls).1 = (List.range calls.length).map (s.nextId + ·) := by
  induction calls with
  | nil => intro s; rfl
  | cons a rest ih =>
    intro s
    simp only [saveMany, save_prediction, ih, List.length_cons, List.range_succ_eq_map,
      List.map_cons, List.map_map, List.cons.injEq]
    constructor
    · omega
    · apply List.map_congr_left
      intro n _
      simp only [Function.comp_apply]
      omega

theorem saveMany_ids_nodup (s : Store) (calls : List SaveArgs) :
    (saveMany s calls).1.Nodup := by
  rw [saveMany_ids]
  exact (List.nodup_range calls.length).map (fun a b h => by omega)

/-! ### Supporting lemmas about the repository and the drift gates -/

theorem selectFeatureRows_nil (s : Store) (limit : Option Nat)
    (h : s.rows = []) : selectFeatureRows s limit = [] := by
  cases hl : pyTruthyNat limit <;>
    simp [selectFeatureRows, h, sortBy, hl]

theorem get_feature_data_empty (s : Store) (limit : Option Nat)
    (h : selectFeatureRows s limit = []) :
    get_feature_data s limit = Except.ok { cols := [], nrows := 0 } := by
  simp [get_feature_data, h]

theorem get_feature_data_nonempty (s : Store) (limit : Option Nat)
    (h : selectFeatureRows s limit ≠ []) :
    get_feature_data s limit =
      Except.ok { cols := liveCols s limit, nrows := liveCount s limit } := by
  have h' : (selectFeatureRows s limit).isEmpty = false := by
    simpa [List.isEmpty_iff] using h
  simp [get_feature_data, h', liveCols, liveCount]

theorem liveCount_pos_iff (s : Store) (limit : Option Nat) :
    0 < liveCount s limit ↔ selectFeatureRows s limit ≠ [] := by
  unfold liveCount
  constructor
  · intro h he
    rw [he] at h
    simp at h
  · intro h
    exact List.length_pos.mpr h

theorem mem_missingFeatures (fl : List String) (f : FeatMap) (k : String) :
    k ∈ missingFeatures fl f ↔ (k ∈ fl ∧ k ∉ featKeys f) := by
  unfold missingFeatures sortStrAsc
  rw [mem_sortBy, mem_firstDedup]
  simp only [List.mem_filter, List.not_mem_nil, not_false_iff, and_true,
    Bool.not_eq_true']
  constructor
  · rintro ⟨hm, hc⟩
    refine ⟨hm, ?_⟩
    intro hk
    have ht : (featKeys f).contains k = true := List.elem_iff.mpr hk
    rw [ht] at hc
    cases hc
  · rintro ⟨hm, hk⟩
    refine ⟨hm, ?_⟩
    cases hc : List.contains (featKeys f) k
    · rfl
    · exact absurd (List.elem_iff.mp hc) hk

theorem missingFeatures_sorted (fl : List String) (f : FeatMap) :
    List.Chain' (fun a b => strLe a b = true) (missingFeatures fl f) :=
  sortBy_chain (fun a b => strLe b a) (fun a b => strLe_total b a) _

theorem matchesFilters_none (r : StoredRow) : matchesFilters none none r = true := by
  rfl

/-! ### Witness fixtures (concrete instances used to instantiate theorems) -/

def wModel : SkModel := { predictFn := fun _ => 0, predictProbaFn := fun _ => 1 }

def wRow : StoredRow :=
  { id := 1, timestamp := "2024-01-01T00:00:00", features := json_dumps [("Time", 0)],
    prediction := 0, probability := 1, latency_ms := 2 }

def wStore : Store := { rows := [wRow], nextId := 2 }

def wEmptyStore : Store := { rows := [], nextId := 1 }

/-! ### Claim theorems -/

/-- C1: whenever the model prediction succeeds, the predict route returns a
successful response carrying the computed prediction, probability, latency
and timestamp, for every possible outcome of the subsequent
save_prediction call — a persistence failure is swallowed, never
propagated as a request failure. -/
theorem predict_route_swallows_save_failure (r : PredOut)
    (saveResult : Except AppError Nat) (lat : ℚ) (ts : String) :
    predictRoute (Except.ok r) saveResult lat ts =
      Except.ok { prediction := r.prediction, probability := r.probability,
                  latency_ms := lat, timestamp := ts } := by
  cases saveResult <;> rfl

/-- C4: on a store with zero matching rows, get_feature_data returns an
explicitly empty DataFrame and does not raise, while detect_drift on that
store fails with a DriftDetectionError indicating there is no live data. -/
theorem empty_store_feature_data (s : Store) (limit : Option Nat)
    (refDf : DataFrame) (min_records : Nat) (dir : String)
    (h : s.rows = []) :
    get_feature_data s limit = Except.ok { cols := [], nrows := 0 }
    ∧ detect_drift (some refDf) s min_records limit dir =
        Except.error (AppError.driftDetectionError noLiveDataMsg) := by
  have hsel := selectFeatureRows_nil s limit h
  have hg := get_feature_data_empty s limit hsel
  refine ⟨hg, ?_⟩
  simp [detect_drift, load_reference_data, hg]

theorem empty_store_feature_data_witness :
    wEmptyStore.rows = []
    ∧ (get_feature_data wEmptyStore none = Except.ok { cols := [], nrows := 0 }
       ∧ detect_drift (some { cols := ["Time"], nrows := 3 }) wEmptyStore 500 none "artifacts" =
           Except.error (AppError.driftDetectionError noLiveDataMsg)) :=
  ⟨rfl, empty_store_feature_data wEmptyStore none { cols := ["Time"], nrows := 3 } 500 "artifacts" rfl⟩

/-- C9: the health check always returns a structured status drawn from
healthy / degraded / error; it reports healthy exactly when both the model
is loaded and the database is connected, degraded when exactly one of the
two is unavailable, and error only when an exception occurred during the
check itself. -/
theorem health_check_status_classification (mRes dRes : Except String Bool) :
    ((healthRoute mRes dRes).status = "healthy" ∨
     (healthRoute mRes dRes).status = "degraded" ∨
     (healthRoute mRes dRes).status = "error")
    ∧ (∀ a b : Bool, mRes = Except.ok a → dRes = Except.ok b →
        ((healthRoute mRes dRes).status = "healthy" ↔ (a = true ∧ b = true)))
    ∧ (∀ a b : Bool, mRes = Except.ok a → dRes = Except.ok b →
        ((a = true ∧ b = false) ∨ (a = false ∧ b = true)) →
        (healthRoute mRes dRes).status = "degraded")
    ∧ ((healthRoute mRes dRes).status = "error" →
        (∃ e, mRes = Except.error e) ∨ (∃ e, dRes = Except.error e)) := by
  rcases mRes with e | a
  · refine ⟨Or.inr (Or.inr rfl), ?_, ?_, fun _ => Or.inl ⟨e, rfl⟩⟩
    · intro a b hma hdb
      exact Except.noConfusion hma
    · intro a b hma hdb hx
      exact Except.noConfusion hma
  · rcases dRes with e' | b
    · refine ⟨Or.inr (Or.inr rfl), ?_, ?_, fun _ => Or.inr ⟨e', rfl⟩⟩
      · intro a' b' hma hdb
        exact Except.noConfusion hdb
      · intro a' b' hma hdb hx
        exact Except.noConfusion hdb
    · cases a <;> cases b <;>
        refine ⟨by decide, ?_, ?_, fun h => absurd h (by decide)⟩ <;>
        intro a' b' hma hdb <;>
        cases hma <;> cases hdb
      case _ => decide
      case _ =>
        intro hx
        rcases hx with ⟨x1, x2⟩ | ⟨x1, x2⟩ <;>
          first | rfl | exact absurd x1 (by decide) | exact absurd x2 (by decide)
      case _ => decide
      case _ =>
        intro hx
        rcases hx with ⟨x1, x2⟩ | ⟨x1, x2⟩ <;>
          first | rfl | exact absurd x1 (by decide) | exact absurd x2 (by decide)
      case _ => decide
      case _ =>
        intro hx
        rcases hx with ⟨x1, x2⟩ | ⟨x1, x2⟩ <;>
          first | rfl | exact absurd x1 (by decide) | exact absurd x2 (by decide)
      case _ => decide
      case _ =>
        intro hx
        rcases hx with ⟨x1, x2⟩ | ⟨x1, x2⟩ <;>
          first | rfl | exact absurd x1 (by decide) | exact absurd x2 (by decide)

theorem health_check_status_classification_witness :
    (healthRoute (Except.ok true) (Except.ok false)).status = "degraded" :=
  (health_check_status_classification (Except.ok true) (Except.ok false)).2.2.1
    true false rfl rfl (Or.inl ⟨rfl, rfl⟩)

/-- C10: a limit of 0 is treated like an absent limit (all matching rows
returned), and a non-zero offset without a limit is silently ignored,
because the LIMIT/OFFSET clause is only appended when the limit argument
is truthy. -/
theorem limit_zero_means_no_limit (s : Store) (offset : Nat)
    (startT endT : Option String) :
    get_predictions s (some 0) offset startT endT =
      get_predictions s none 0 startT endT
    ∧ (∀ off : Nat, get_predictions s none off startT endT =
        get_predictions s none 0 startT endT)
    ∧ get_feature_data s (some 0) = get_feature_data s none := by
  refine ⟨rfl, fun off => rfl, rfl⟩

/-! ### Sorted set-difference used in drift and prediction error messages -/

/-- Membership in the Python expression sorted(set(a) - set(b)) as embedded:
sortStrAsc (firstDedup [] (a.filter fun x => !b.contains x)). -/
theorem mem_sortedSetDiff (a b : List String) (c : String) :
    c ∈ sortStrAsc (firstDedup [] (a.filter (fun x => !b.contains x))) ↔
      (c ∈ a ∧ c ∉ b) := by
  unfold sortStrAsc
  rw [mem_sortBy, mem_firstDedup]
  simp only [List.mem_filter, List.not_mem_nil, not_false_iff, and_true,
    Bool.not_eq_true']
  constructor
  · rintro ⟨hm, hc⟩
    refine ⟨hm, ?_⟩
    intro hk
    have ht : b.contains c = true := List.elem_iff.mpr hk
    rw [ht] at hc
    cases hc
  · rintro ⟨hm, hk⟩
    refine ⟨hm, ?_⟩
    cases hc : b.contains c
    · rfl
    · exact absurd (List.elem_iff.mp hc) hk

theorem sortStrAsc_chain (l : List String) :
    List.Chain' (fun a b => strLe a b = true) (sortStrAsc l) :=
  sortBy_chain (fun a b => strLe b a) (fun a b => strLe_total b a) l

/-- The sorted missing-in-live column list detect_drift reports. -/
def missingInLiveList (refDf : DataFrame) (s : Store) (limit : Option Nat) :
    List String :=
  sortStrAsc (firstDedup []
    ((dropClassColumn refDf).cols.filter (fun c => !(liveCols s limit).contains c)))

/-- The sorted extra-in-live column list detect_drift reports. -/
def extraInLiveList (refDf : DataFrame) (s : Store) (limit : Option Nat) :
    List String :=
  sortStrAsc (firstDedup []
    ((liveCols s limit).filter (fun c => !(dropClassColumn refDf).cols.contains c)))

/-- C2: with a valid reference, on a non-empty live feature table whose row
count is strictly below the configured minimum, detect_drift fails with a
DriftDetectionError whose message states the actual row count and the
required minimum (the run does not proceed); and whenever the live record
count is below the threshold, detect_drift fails with a
DriftDetectionError regardless of reference data validity. -/
theorem detect_drift_min_records_gate (refRaw : Option DataFrame) (s : Store)
    (min_records : Nat) (limit : Option Nat) (dir : String) :
    (∀ refDf : DataFrame, refRaw = some refDf →
      0 < liveCount s limit → liveCount s limit < min_records →
      detect_drift refRaw s min_records limit dir =
        Except.error (AppError.driftDetectionError
          (notEnoughMsg (liveCount s limit) min_records))
      ∧ mentions (notEnoughMsg (liveCount s limit) min_records)
          (toString (liveCount s limit))
      ∧ mentions (notEnoughMsg (liveCount s limit) min_records)
          (toString min_records))
    ∧ (liveCount s limit < min_records →
        ∃ msg, detect_drift refRaw s min_records limit dir =
          Except.error (AppError.driftDetectionError msg)) := by
  have hmain : ∀ refDf : DataFrame, refRaw = some refDf →
      0 < liveCount s limit → liveCount s limit < min_records →
      detect_drift refRaw s min_records limit dir =
        Except.error (AppError.driftDetectionError
          (notEnoughMsg (liveCount s limit) min_records)) := by
    intro refDf href hpos hlt
    subst href
    have hne := (liveCount_pos_iff s limit).mp hpos
    have hg := get_feature_data_nonempty s limit hne
    have h0 : liveCount s limit ≠ 0 := Nat.pos_iff_ne_zero.mp hpos
    simp [detect_drift, load_reference_data, hg, h0, hlt]
  have hm1 : mentions (notEnoughMsg (liveCount s limit) min_records)
      (toString (liveCount s limit)) :=
    ⟨"Not enough live data for drift detection. Found ",
     " records, but need at least " ++ toString min_records ++
       " records. Please make more predictions via the API.",
     by simp [notEnoughMsg, String.append_assoc]⟩
  have hm2 : mentions (notEnoughMsg (liveCount s limit) min_records)
      (toString min_records) :=
    ⟨"Not enough live data for drift detection. Found " ++
       toString (liveCount s limit) ++ " records, but need at least ",
     " records. Please make more predictions via the API.",
     by simp [notEnoughMsg, String.append_assoc]⟩
  refine ⟨fun refDf href hpos hlt => ⟨hmain refDf href hpos hlt, hm1, hm2⟩,
    fun hlt => ?_⟩
  rcases href : refRaw with _ | refDf
  · exact ⟨"Reference data not found: reference data file is missing", rfl⟩
  · by_cases h0 : liveCount s limit = 0
    · have hsel : selectFeatureRows s limit = [] := by
        unfold liveCount at h0
        exact List.length_eq_zero.mp h0
      have hg := get_feature_data_empty s limit hsel
      exact ⟨noLiveDataMsg, by simp [detect_drift, load_reference_data, hg]⟩
    · refine ⟨notEnoughMsg (liveCount s limit) min_records, ?_⟩
      rw [← href]
      exact hmain refDf href (Nat.pos_of_ne_zero h0) hlt

theorem detect_drift_min_records_gate_witness :
    detect_drift (some { cols := ["Time"], nrows := 3 }) wStore 500 none "artifacts" =
      Except.error (AppError.driftDetectionError (notEnoughMsg (liveCount wStore none) 500))
    ∧ mentions (notEnoughMsg (liveCount wStore none) 500) (toString (liveCount wStore none))
    ∧ mentions (notEnoughMsg (liveCount wStore none) 500) (toString 500) :=
  (detect_drift_min_records_gate (some { cols := ["Time"], nrows := 3 })
      wStore 500 none "artifacts").1
    { cols := ["Time"], nrows := 3 } rfl (by decide) (by decide)

/-- C3: when the run reaches the column comparison (valid reference,
non-empty live table of at least the minimum size) and the reference and
live column sets differ, detect_drift fails with a DriftDetectionError
listing the columns missing in the live table and the extra columns in
the live table, each sorted. -/
theorem detect_drift_feature_mismatch (refDf : DataFrame) (s : Store)
    (min_records : Nat) (limit : Option Nat) (dir : String)
    (hpos : 0 < liveCount s limit)
    (hmin : min_records ≤ liveCount s limit)
    (hset : listSetEq (dropClassColumn refDf).cols (liveCols s limit) = false) :
    detect_drift (some refDf) s min_records limit dir =
      Except.error (AppError.driftDetectionError
        (featureMismatchMsg (missingInLiveList refDf s limit)
          (extraInLiveList refDf s limit)))
    ∧ (∀ c, c ∈ missingInLiveList refDf s limit ↔
        (c ∈ (dropClassColumn refDf).cols ∧ c ∉ liveCols s limit))
    ∧ (∀ c, c ∈ extraInLiveList refDf s limit ↔
        (c ∈ liveCols s limit ∧ c ∉ (dropClassColumn refDf).cols))
    ∧ List.Chain' (fun a b => strLe a b = true) (missingInLiveList refDf s limit)
    ∧ List.Chain' (fun a b => strLe a b = true) (extraInLiveList refDf s limit) := by
  have hne := (liveCount_pos_iff s limit).mp hpos
  have hg := get_feature_data_nonempty s limit hne
  have h0 : liveCount s limit ≠ 0 := Nat.pos_iff_ne_zero.mp hpos
  have hnl : ¬(liveCount s limit < min_records) := Nat.not_lt.mpr hmin
  refine ⟨?_, fun c => mem_sortedSetDiff _ _ c, fun c => mem_sortedSetDiff _ _ c,
    sortStrAsc_chain _, sortStrAsc_chain _⟩
  simp [detect_drift, load_reference_data, hg, h0, hnl, hset,
    missingInLiveList, extraInLiveList]

theorem detect_drift_feature_mismatch_witness :
    detect_drift (some { cols := ["Time", "V1"], nrows := 10 }) wStore 1 none "artifacts" =
      Except.error (AppError.driftDetectionError
        (featureMismatchMsg
          (missingInLiveList { cols := ["Time", "V1"], nrows := 10 } wStore none)
          (extraInLiveList { cols := ["Time", "V1"], nrows := 10 } wStore none)))
    ∧ (∀ c, c ∈ missingInLiveList { cols := ["Time", "V1"], nrows := 10 } wStore none ↔
        (c ∈ (dropClassColumn { cols := ["Time", "V1"], nrows := 10 }).cols ∧
         c ∉ liveCols wStore none))
    ∧ (∀ c, c ∈ extraInLiveList { cols := ["Time", "V1"], nrows := 10 } wStore none ↔
        (c ∈ liveCols wStore none ∧
         c ∉ (dropClassColumn { cols := ["Time", "V1"], nrows := 10 }).cols))
    ∧ List.Chain' (fun a b => strLe a b = true)
        (missingInLiveList { cols := ["Time", "V1"], nrows := 10 } wStore none)
    ∧ List.Chain' (fun a b => strLe a b = true)
        (extraInLiveList { cols := ["Time", "V1"], nrows := 10 } wStore none) :=
  detect_drift_feature_mismatch { cols := ["Time", "V1"], nrows := 10 } wStore 1 none
    "artifacts" (by decide) (by decide) (by decide)

/-- C5: for every loaded model and every input feature mapping whose key
set omits at least one schema name, predict fails with a PredictionError
naming exactly the missing schema keys, in sorted order. -/
theorem predict_missing_features_error (st : ModelState) (m : SkModel)
    (fl : List String) (f : FeatMap)
    (hm : st.model = some m) (hfl : st.feature_list = some fl)
    (hld : st.loaded = true)
    (hmiss : ∃ k, k ∈ fl ∧ k ∉ featKeys f) :
    predict st f =
      Except.error (AppError.predictionError
        ("Missing features: " ++ pyStrListRepr (missingFeatures fl f))
        (missingFeatures fl f))
    ∧ (∀ k, k ∈ missingFeatures fl f ↔ (k ∈ fl ∧ k ∉ featKeys f))
    ∧ List.Chain' (fun a b => strLe a b = true) (missingFeatures fl f) := by
  have hload : is_loaded st = true := by
    simp [is_loaded, hm, hfl, hld]
  obtain ⟨k, hk1, hk2⟩ := hmiss
  have hkmem : k ∈ missingFeatures fl f := (mem_missingFeatures fl f k).mpr ⟨hk1, hk2⟩
  have hne : missingFeatures fl f ≠ [] := by
    intro h
    rw [h] at hkmem
    cases hkmem
  have hbe : (missingFeatures fl f).isEmpty = false := by
    simpa [List.isEmpty_iff] using hne
  refine ⟨?_, fun c => mem_missingFeatures fl f c, missingFeatures_sorted fl f⟩
  simp [predict, hload, hm, hfl, hbe]

theorem predict_missing_features_error_witness :
    predict { model := some wModel, feature_list := some ["Amount", "Time"], loaded := true }
        [("Time", 1)] =
      Except.error (AppError.predictionError
        ("Missing features: " ++ pyStrListRepr (missingFeatures ["Amount", "Time"] [("Time", 1)]))
        (missingFeatures ["Amount", "Time"] [("Time", 1)]))
    ∧ (∀ k, k ∈ missingFeatures ["Amount", "Time"] [("Time", 1)] ↔
        (k ∈ ["Amount", "Time"] ∧ k ∉ featKeys [("Time", 1)]))
    ∧ List.Chain' (fun a b => strLe a b = true)
        (missingFeatures ["Amount", "Time"] [("Time", 1)]) :=
  predict_missing_features_error
    { model := some wModel, feature_list := some ["Amount", "Time"], loaded := true }
    wModel ["Amount", "Time"] [("Time", 1)] rfl rfl rfl
    ⟨"Amount", by decide, by decide⟩

/-- C6: predict on the initial (never loaded) state fails with
ModelLoadError; after a successful load_model, for every feature mapping
containing every schema key, predict succeeds, and — given the binary
classifier contract of the loaded artifact — returns a label in 0/1 and a
probability in [0, 1]. -/
theorem predict_requires_successful_load (env : LoadEnv) (m : SkModel)
    (st' : ModelState) (f : FeatMap)
    (hma : env.modelArtifact = some m)
    (hload : load_model initModelState env = Except.ok st')
    (hbin : ∀ xs, m.predictFn xs = 0 ∨ m.predictFn xs = 1)
    (hprob : ∀ xs, 0 ≤ m.predictProbaFn xs ∧ m.predictProbaFn xs ≤ 1)
    (hkeys : ∀ fl, st'.feature_list = some fl → ∀ k ∈ fl, k ∈ featKeys f) :
    predict initModelState f =
      Except.error (AppError.modelLoadError "Model is not loaded. Call load_model() first.")
    ∧ ∃ out : PredOut, predict st' f = Except.ok out
        ∧ (out.prediction = 0 ∨ out.prediction = 1)
        ∧ 0 ≤ out.probability ∧ out.probability ≤ 1 := by
  refine ⟨rfl, ?_⟩
  unfold load_model at hload
  rw [if_neg (by decide : ¬(initModelState.loaded = true))] at hload
  split at hload
  · exact Except.noConfusion hload
  · exact Except.noConfusion hload
  · rename_i m2 j heqm heqj
    have hm2 : m = m2 := by
      rw [hma] at heqm
      exact Option.some.inj heqm
    subst hm2
    split at hload
    · exact Except.noConfusion hload
    · rename_i fl heqfl
      split at hload
      · exact Except.noConfusion hload
      · rename_i hemp
        have hst : st' = { model := some m, feature_list := some fl, loaded := true } :=
          (Except.ok.inj hload).symm
        subst hst
        have hflkeys : ∀ k ∈ fl, k ∈ featKeys f := hkeys fl rfl
        have hmiss : missingFeatures fl f = [] := by
          rw [List.eq_nil_iff_forall_not_mem]
          intro k hk
          obtain ⟨hk1, hk2⟩ := (mem_missingFeatures fl f k).mp hk
          exact hk2 (hflkeys k hk1)
        refine ⟨{ prediction := m.predictFn (fl.map (fun k => ((f.lookup k).getD 0))),
                  probability := m.predictProbaFn (fl.map (fun k => ((f.lookup k).getD 0))) },
                ?_, hbin _, (hprob _).1, (hprob _).2⟩
        simp [predict, is_loaded, hmiss]

theorem predict_requires_successful_load_witness :
    predict initModelState [("Time", 1)] =
      Except.error (AppError.modelLoadError "Model is not loaded. Call load_model() first.")
    ∧ ∃ out : PredOut,
        predict { model := some wModel, feature_list := some ["Time"], loaded := true }
            [("Time", 1)] = Except.ok out
        ∧ (out.prediction = 0 ∨ out.prediction = 1)
        ∧ 0 ≤ out.probability ∧ out.probability ≤ 1 :=
  predict_requires_successful_load
    { modelArtifact := some wModel, featuresArtifact := some (Jval.arr [Jval.str "Time"]) }
    wModel { model := some wModel, feature_list := some ["Time"], loaded := true }
    [("Time", 1)] rfl rfl
    (fun _ => Or.inl rfl)
    (fun _ => ⟨(by decide : (0 : ℚ) ≤ 1), (by decide : (1 : ℚ) ≤ 1)⟩)
    (fun fl hfl => by
      injection hfl with h
      subst h
      intro k hk
      exact hk)

/-- C7: a save_prediction whose (defaulted) timestamp is later than every
stored timestamp, followed by query(limit=1), returns exactly the saved
record — id, timestamp, deserialized features (round-trip through
json_dumps / json_loads), prediction, probability and latency — and the
identifiers returned by repeated save_prediction calls are pairwise
distinct. -/
theorem save_then_query_roundtrip (s : Store) (f : FeatMap) (p : Int)
    (pr lat : ℚ) (ts : Option String) (now : String)
    (hfresh : ∀ r ∈ s.rows, strLt r.timestamp (ts.getD now) = true) :
    get_predictions (save_prediction s f p pr lat ts now).2 (some 1) 0 none none =
      Except.ok [{ id := (save_prediction s f p pr lat ts now).1,
                   timestamp := ts.getD now, features := f, prediction := p,
                   probability := pr, latency_ms := lat }]
    ∧ ∀ (s2 : Store) (calls : List SaveArgs), (saveMany s2 calls).1.Nodup := by
  refine ⟨?_, fun s2 calls => saveMany_ids_nodup s2 calls⟩
  set nr : StoredRow :=
    { id := s.nextId, timestamp := ts.getD now, features := json_dumps f,
      prediction := p, probability := pr, latency_ms := lat } with hnr
  have hrow : (save_prediction s f p pr lat ts now).2.rows = s.rows ++ [nr] := rfl
  have hfilter : (s.rows ++ [nr]).filter (matchesFilters none none) = s.rows ++ [nr] :=
    List.filter_eq_self.mpr (fun a _ => matchesFilters_none a)
  have hsort : sortBy rowLe (s.rows ++ [nr]) = nr :: sortBy rowLe s.rows := by
    apply sortBy_append_largest
    intro y hy
    exact ⟨strLe_false_of_strLt (hfresh y hy), strLe_of_strLt (hfresh y hy)⟩
  simp only [get_predictions, getPredictionsList, hrow]
  rw [hfilter, hsort]
  simp [pyTruthyNat, rowToOut, hnr, json_loads_dumps, save_prediction]

theorem save_then_query_roundtrip_witness :
    (∀ r ∈ wEmptyStore.rows,
      strLt r.timestamp ((some "2024-01-02T00:00:00").getD "n") = true)
    ∧ (get_predictions
        (save_prediction wEmptyStore [("Time", 3)] 1 1 2
          (some "2024-01-02T00:00:00") "n").2 (some 1) 0 none none =
        Except.ok [{ id := (save_prediction wEmptyStore [("Time", 3)] 1 1 2
                        (some "2024-01-02T00:00:00") "n").1,
                     timestamp := (some "2024-01-02T00:00:00").getD "n",
                     features := [("Time", 3)], prediction := 1,
                     probability := 1, latency_ms := 2 }]
       ∧ ∀ (s2 : Store) (calls : List SaveArgs), (saveMany s2 calls).1.Nodup) :=
  ⟨fun r hr => absurd hr (List.not_mem_nil r),
   save_then_query_roundtrip wEmptyStore [("Time", 3)] 1 1 2
     (some "2024-01-02T00:00:00") "n"
     (fun r hr => absurd hr (List.not_mem_nil r))⟩

/-! C8 fixtures: three saves with increasing timestamps T1 < T2 < T3. -/

def demoArgs1 : SaveArgs :=
  { features := [("Time", 0)], prediction := 0, probability := 1, latency_ms := 2,
    timestamp := some "2024-01-01T00:00:01", nowUtc := "n" }

def demoArgs2 : SaveArgs :=
  { features := [("Time", 0)], prediction := 0, probability := 1, latency_ms := 2,
    timestamp := some "2024-01-01T00:00:02", nowUtc := "n" }

def demoArgs3 : SaveArgs :=
  { features := [("Time", 0)], prediction := 0, probability := 1, latency_ms := 2,
    timestamp := some "2024-01-01T00:00:03", nowUtc := "n" }

def demoStore3 : Store :=
  (saveMany { rows := [], nextId := 1 } [demoArgs1, demoArgs2, demoArgs3]).2

def demoOut2 : PredictionOut :=
  { id := 2, timestamp := "2024-01-01T00:00:02", features := [("Time", 0)],
    prediction := 0, probability := 1, latency_ms := 2 }

def demoOut3 : PredictionOut :=
  { id := 3, timestamp := "2024-01-01T00:00:03", features := [("Time", 0)],
    prediction := 0, probability := 1, latency_ms := 2 }

/-- C8: get_predictions always returns its records sorted by timestamp
descending, with truthy start/end filters applied as inclusive bounds
(every returned record satisfies them; with no limit, every stored row
satisfying them is returned); after three saves with increasing timestamps
T1 < T2 < T3, query(limit=2) returns the T3 and T2 records in that
order. -/
theorem query_sorted_desc_inclusive_bounds (s : Store) (limit : Option Nat)
    (offset : Nat) (startT endT : Option String) :
    get_predictions s limit offset startT endT =
      Except.ok (getPredictionsList s limit offset startT endT)
    ∧ List.Chain' (fun a b : PredictionOut => strLe b.timestamp a.timestamp = true)
        (getPredictionsList s limit offset startT endT)
    ∧ (∀ r ∈ getPredictionsList s limit offset startT endT,
        (pyTruthyStr startT = true → strLe (startT.getD "") r.timestamp = true) ∧
        (pyTruthyStr endT = true → strLe r.timestamp (endT.getD "") = true))
    ∧ (limit = none → ∀ row ∈ s.rows, matchesFilters startT endT row = true →
        rowToOut row ∈ getPredictionsList s limit offset startT endT)
    ∧ getPredictionsList demoStore3 (some 2) 0 none none = [demoOut3, demoOut2] := by
  have htot : ∀ a b : StoredRow, rowLe a b = true ∨ rowLe b a = true :=
    fun a b => strLe_total a.timestamp b.timestamp
  refine ⟨rfl, ?_, ?_, ?_, by decide⟩
  · simp only [getPredictionsList]
    rw [List.chain'_map]
    by_cases htr : pyTruthyNat limit = true
    · rw [if_pos htr]
      exact ((sortBy_chain rowLe htot _).drop offset).take _
    · rw [if_neg htr]
      exact sortBy_chain rowLe htot _
  · intro r hr
    simp only [getPredictionsList] at hr
    obtain ⟨row, hrowmem, hout⟩ := List.mem_map.mp hr
    have hfiltermem : row ∈ s.rows.filter (matchesFilters startT endT) := by
      rw [← mem_sortBy rowLe]
      by_cases htr : pyTruthyNat limit = true
      · rw [if_pos htr] at hrowmem
        exact List.mem_of_mem_drop (List.mem_of_mem_take hrowmem)
      · rw [if_neg htr] at hrowmem
        exact hrowmem
    have hmatch := (List.mem_filter.mp hfiltermem).2
    unfold matchesFilters at hmatch
    rw [Bool.and_eq_true] at hmatch
    obtain ⟨hm1, hm2⟩ := hmatch
    subst hout
    constructor
    · intro hst
      rw [if_pos hst] at hm1
      exact hm1
    · intro hen
      rw [if_pos hen] at hm2
      exact hm2
  · intro hl row hrow hmatch
    subst hl
    simp only [getPredictionsList, pyTruthyNat, Bool.false_eq_true, if_false]
    refine List.mem_map_of_mem rowToOut ?_
    rw [mem_sortBy]
    exact List.mem_filter.mpr ⟨hrow, hmatch⟩

theorem query_sorted_desc_inclusive_bounds_witness :
    rowToOut wRow ∈ getPredictionsList wStore none 0 none none :=
  (query_sorted_desc_inclusive_bounds wStore none 0 none none).2.2.2.1 rfl
    wRow (List.mem_singleton.mpr rfl) rfl
